import Mathlib

/-!
# Verification of the Discord-Bot policy-and-state engine

Shallow embedding of the core policy functions of the Discord community
management bot (`src/core/user_stats.py`, `src/core/warnings.py`,
`src/core/current_team_manager.py`, `src/ui/buttons.py`, `src/ui/forms.py`)
together with proofs and refutations of the specification claims.

Modelling conventions:
* Python `dict`s (insertion ordered, in-place update of existing keys, new
  keys appended) are modelled as association lists with `dictFind` /
  `dictSet`.
* Calendar dates (stored on the wire as `"%d-%m-%Y"` strings, a format that
  is injective on day/month/year triples) are modelled as a `Date`
  structure; Python `date` subtraction and ordering are modelled through
  the proleptic-Gregorian day ordinal `dateOrd` and lexicographic
  comparison respectively.
* `float` hour values are modelled as exact rationals `ℚ`.
* Discord `Role` objects are records carrying a `name`; `Member` carries
  `id`, `bot` and `roles`.
* Functions that read `datetime.now()` or fresh `uuid4()` values take the
  produced timestamp / identifier as an explicit argument.
-/

namespace DiscordBot

/-! ## Association lists modelling Python dicts -/

/-- First value bound to `k`, scanning left to right (Python dict lookup). -/
def dictFind {α β : Type} [DecidableEq α] (k : α) : List (α × β) → Option β
  | [] => none
  | (k', v) :: t => if k' = k then some v else dictFind k t

/-- The `d[k] = v` for a Python dict: overwrite the first binding of `k` in
place, or append a fresh binding at the end. -/
def dictSet {α β : Type} [DecidableEq α] (k : α) (v : β) : List (α × β) → List (α × β)
  | [] => [(k, v)]
  | (k', v') :: t => if k' = k then (k', v) :: t else (k', v') :: dictSet k v t

@[simp] theorem dictFind_nil {α β : Type} [DecidableEq α] (k : α) :
    dictFind (β := β) k [] = none := rfl

@[simp] theorem dictFind_cons {α β : Type} [DecidableEq α] (k k' : α) (v : β) (t : List (α × β)) :
    dictFind k ((k', v) :: t) = if k' = k then some v else dictFind k t := rfl

@[simp] theorem dictSet_nil {α β : Type} [DecidableEq α] (k : α) (v : β) :
    dictSet k v [] = [(k, v)] := rfl

@[simp] theorem dictSet_cons {α β : Type} [DecidableEq α] (k k' : α) (v v' : β)
    (t : List (α × β)) :
    dictSet k v ((k', v') :: t) =
      if k' = k then (k', v) :: t else (k', v') :: dictSet k v t := rfl

theorem dictFind_dictSet_self {α β : Type} [DecidableEq α] (k : α) (v : β)
    (l : List (α × β)) : dictFind k (dictSet k v l) = some v := by
  induction l with
  | nil => simp
  | cons h t ih =>
    obtain ⟨k', v'⟩ := h
    by_cases hk : k' = k <;> simp [hk, ih]

theorem dictFind_dictSet_ne {α β : Type} [DecidableEq α] {k k' : α} (v : β)
    (l : List (α × β)) (hk : k' ≠ k) :
    dictFind k (dictSet k' v l) = dictFind k l := by
  induction l with
  | nil => simp [hk]
  | cons h t ih =>
    obtain ⟨k'', v''⟩ := h
    by_cases hk2 : k'' = k'
    · subst hk2
      simp [hk]
    · simp only [dictSet_cons, if_neg hk2, dictFind_cons, ih]

theorem dictFind_append {α β : Type} [DecidableEq α] (k : α)
    (l₁ l₂ : List (α × β)) (h : dictFind k l₁ = none) :
    dictFind k (l₁ ++ l₂) = dictFind k l₂ := by
  induction l₁ with
  | nil => simp
  | cons p t ih =>
    obtain ⟨k', v'⟩ := p
    by_cases hk : k' = k
    · simp [hk] at h
    · rw [List.cons_append]
      simp only [dictFind_cons, hk, if_false] at h ⊢
      exact ih h

/-! ## Calendar dates

The bot persists dates as `"%d-%m-%Y"` strings; that format is a bijection
between valid calendar dates and the stored strings, so we carry the
day/month/year triple directly.  `dateOrd` is the proleptic-Gregorian day
ordinal (`0001-01-01` has ordinal 1, matching Python's `date.toordinal`),
used to model `(end - start).days`; `nextDay`/`addDays` model
`date + timedelta(days=i)`; `dateLE` models Python's `date <= date`
(chronological, i.e. lexicographic on the year/month/day triple). -/

structure Date where
  day : Nat
  month : Nat
  year : Nat
deriving DecidableEq, Repr

def isLeap (y : Nat) : Bool :=
  (y % 4 == 0 && y % 100 != 0) || y % 400 == 0

def daysInMonth (y m : Nat) : Nat :=
  if m = 2 then (if isLeap y then 29 else 28)
  else if m = 4 ∨ m = 6 ∨ m = 9 ∨ m = 11 then 30
  else 31

def daysBeforeMonth (y m : Nat) : Nat :=
  ((List.range (m - 1)).map (fun i => daysInMonth y (i + 1))).sum

/-- Proleptic-Gregorian day ordinal of a date (Python `date.toordinal`). -/
def dateOrd (d : Date) : Nat :=
  let y := d.year - 1
  365 * y + y / 4 + y / 400 - y / 100 + daysBeforeMonth d.year d.month + d.day

def nextDay (d : Date) : Date :=
  if d.day < daysInMonth d.year d.month then ⟨d.day + 1, d.month, d.year⟩
  else if d.month < 12 then ⟨1, d.month + 1, d.year⟩
  else ⟨1, 1, d.year + 1⟩

/-- The `d + timedelta(days := n)`. -/
def addDays (d : Date) : Nat → Date
  | 0 => d
  | n + 1 => nextDay (addDays d n)

/-- Python `date` ordering (chronological). -/
def dateLE (a b : Date) : Bool :=
  a.year < b.year ||
    (a.year == b.year &&
      (a.month < b.month || (a.month == b.month && a.day ≤ b.day)))

/-- The `date.strftime("%A")`: the weekday name, determined by the ordinal
(`0001-01-01` was a Monday in the proleptic Gregorian calendar). -/
def dayName (d : Date) : String :=
  match dateOrd d % 7 with
  | 1 => "Monday"
  | 2 => "Tuesday"
  | 3 => "Wednesday"
  | 4 => "Thursday"
  | 5 => "Friday"
  | 6 => "Saturday"
  | _ => "Sunday"

/-! ## Roles and members -/

/-- A Discord role; the bot only ever inspects `role.name`. -/
structure Role where
  name : String
deriving DecidableEq, Repr

/-- A Discord guild member as seen by the bot. -/
structure Member where
  id : Nat
  bot : Bool
  roles : List Role
deriving DecidableEq, Repr

/-! ## Role hierarchy (`src/ui/buttons.py`) -/

/-- The `ROLE_HIERARCHY` map of `src/ui/buttons.py`. -/
def ROLE_HIERARCHY : List (String × Nat) :=
  [("Trainee Member", 1), ("2nd_years", 2), ("3rd_years", 3),
   ("4th_years", 4), ("Core Member", 4)]

/-- The `get_user_level` of `src/ui/buttons.py`: starts at 0 and takes the max
of the hierarchy values of the roles present in `ROLE_HIERARCHY`. -/
def get_user_level (user_roles : List Role) : Nat :=
  user_roles.foldl
    (fun level r =>
      match dictFind r.name ROLE_HIERARCHY with
      | some v => max level v
      | none => level)
    0

/-- The `can_approve_request` of `src/ui/buttons.py`. -/
def can_approve_request (approver_roles requester_roles : List Role) : Bool :=
  get_user_level approver_roles > get_user_level requester_roles

/-- Level contributed by a single role name, per the specification's
hierarchy map: a role absent from the map contributes 0. -/
def specRoleLevel (name : String) : Nat :=
  (dictFind name ROLE_HIERARCHY).getD 0

/-- The specification's formulation of a user's level: the maximum over
the user's roles of `specRoleLevel`. -/
def specUserLevel (user_roles : List Role) : Nat :=
  (user_roles.map (fun r => specRoleLevel r.name)).foldr max 0

theorem get_user_level_aux (user_roles : List Role) (acc : Nat) :
    user_roles.foldl
        (fun level r =>
          match dictFind r.name ROLE_HIERARCHY with
          | some v => max level v
          | none => level)
        acc = max acc (specUserLevel user_roles) := by
  induction user_roles generalizing acc with
  | nil => simp [specUserLevel]
  | cons r t ih =>
    have hstep :
        (match dictFind r.name ROLE_HIERARCHY with
          | some v => max acc v
          | none => acc) = max acc (specRoleLevel r.name) := by
      unfold specRoleLevel
      cases dictFind r.name ROLE_HIERARCHY <;> simp
    simp only [List.foldl_cons, hstep, ih, specUserLevel, List.map_cons, List.foldr_cons]
    exact max_assoc _ _ _

theorem get_user_level_eq_specUserLevel (user_roles : List Role) :
    get_user_level user_roles = specUserLevel user_roles := by
  unfold get_user_level
  rw [get_user_level_aux]
  omega

/-! ## Submission store (`src/core/user_stats.py`) -/

/-- One stored daily status submission (`submission_data` in
`record_status_update`).  `timestamp` is `datetime.now().isoformat()`,
passed in explicitly. -/
structure Submission where
  date : Date
  hours : ℚ
  description : String
  blockers : String
  is_wfh : Bool
  is_late : Bool
  timestamp : String
deriving DecidableEq, Repr

/-- Per-user record in `users.json`: `submissions` maps submission ids
(`uuid4` strings) to submissions. -/
structure UserRecord where
  username : String
  submissions : List (String × Submission)
  total_hours : ℚ
  total_submissions : Nat
  late_submissions : Nat
deriving DecidableEq, Repr

/-- The `users.json`: user id (the code keys by `str(user_id)`, and `str` is
injective on ids) to per-user record. -/
abbrev UserData := List (Nat × UserRecord)

/-- The first `(sub_id, sub_data)` pair whose stored date equals `d`
(the `for sub_id, sub_data in … items()` scan of `record_status_update`). -/
def findSubmissionForDate (subs : List (String × Submission)) (d : Date) :
    Option (String × Submission) :=
  subs.find? (fun p => decide (p.2.date = d))

/-- The `record_status_update` of `src/core/user_stats.py`.  The `date`
argument is the canonical date (the code normalises the two accepted
string formats to `"%d-%m-%Y"`); `new_id` is the freshly generated
`uuid4` string and `now` the creation timestamp. -/
def record_status_update (user_id : Nat) (username : String) (date : Date)
    (hours : ℚ) (description blockers : String) (is_wfh is_late : Bool)
    (new_id now : String) (data : UserData) : UserData :=
  let base : UserRecord :=
    match dictFind user_id data with
    | some u => u
    | none =>
        { username := username, submissions := [], total_hours := 0,
          total_submissions := 0, late_submissions := 0 }
  let u := { base with username := username }
  let submission_data : Submission :=
    { date := date, hours := hours, description := description,
      blockers := blockers, is_wfh := is_wfh, is_late := is_late,
      timestamp := now }
  let u' :=
    match findSubmissionForDate u.submissions date with
    | some (sub_id, old) =>
        { u with
          total_hours := u.total_hours - old.hours,
          submissions := dictSet sub_id submission_data u.submissions }
    | none =>
        { u with
          submissions := u.submissions ++ [(new_id, submission_data)],
          total_submissions := u.total_submissions + 1,
          late_submissions := u.late_submissions + (if is_late then 1 else 0) }
  dictSet user_id { u' with total_hours := u'.total_hours + hours } data

/-- The `get_user_submissions_for_date` of `src/core/user_stats.py`. -/
def get_user_submissions_for_date (data : UserData) (user_id : Nat) (date : Date) :
    List Submission :=
  match dictFind user_id data with
  | none => []
  | some u => (u.submissions.filter (fun p => decide (p.2.date = date))).map (·.2)

/-- Total hours derivable from a user's stored submissions. -/
def derivedTotalHours (u : UserRecord) : ℚ :=
  (u.submissions.map (fun p => p.2.hours)).sum

/-- Number of stored submissions. -/
def derivedTotalSubmissions (u : UserRecord) : Nat :=
  u.submissions.length

/-- Number of stored submissions flagged late. -/
def derivedLateSubmissions (u : UserRecord) : Nat :=
  (u.submissions.filter (fun p => p.2.is_late)).length

/-! ## Weekly statistics (`src/core/user_stats.py`, `get_weekly_stats`) -/

/-- One entry of the `daily_breakdown` list. -/
structure DayEntry where
  date : Date
  hours : ℚ
  day_name : String
deriving DecidableEq, Repr

/-- Return value of `get_weekly_stats`. -/
structure WeeklyStats where
  total_hours : ℚ
  submissions_count : Nat
  target_met : Bool
  daily_breakdown : List DayEntry
  remaining_hours : ℚ
deriving DecidableEq, Repr

/-- Hours accumulated for one day of the weekly loop: the sum of `hours`
over all stored submissions whose date equals `d`. -/
def dayHours (subs : List (String × Submission)) (d : Date) : ℚ :=
  ((subs.filter (fun p => decide (p.2.date = d))).map (fun p => p.2.hours)).sum

/-- Submissions counted for one day of the weekly loop. -/
def dayCount (subs : List (String × Submission)) (d : Date) : Nat :=
  (subs.filter (fun p => decide (p.2.date = d))).length

/-- Body of the `for i in range(7)` loop of `get_weekly_stats`,
accumulating `(weekly_hours, submissions_count, daily_breakdown)`. -/
def weekStep (subs : List (String × Submission)) (week_start : Date)
    (acc : ℚ × Nat × List DayEntry) (i : Nat) : ℚ × Nat × List DayEntry :=
  let current := addDays week_start i
  (acc.1 + dayHours subs current,
   acc.2.1 + dayCount subs current,
   acc.2.2 ++ [{ date := current, hours := dayHours subs current,
                 day_name := dayName current }])

/-- The `get_weekly_stats` of `src/core/user_stats.py`. -/
def get_weekly_stats (data : UserData) (user_id : Nat) (week_start : Date) :
    WeeklyStats :=
  match dictFind user_id data with
  | none =>
      { total_hours := 0, submissions_count := 0, target_met := false,
        daily_breakdown := [], remaining_hours := 32 }
  | some u =>
      let r := (List.range 7).foldl (weekStep u.submissions week_start) (0, 0, [])
      { total_hours := r.1, submissions_count := r.2.1,
        target_met := decide (r.1 ≥ 32), daily_breakdown := r.2.2,
        remaining_hours := max 0 (32 - r.1) }

theorem weekFold_breakdown (subs : List (String × Submission)) (w : Date)
    (L : List Nat) (q : ℚ) (n : Nat) (es : List DayEntry) :
    ((L.foldl (weekStep subs w) (q, n, es)).2.2) =
      es ++ L.map (fun i =>
        { date := addDays w i, hours := dayHours subs (addDays w i),
          day_name := dayName (addDays w i) : DayEntry }) := by
  induction L generalizing q n es with
  | nil => simp
  | cons i t ih =>
    simp only [List.foldl_cons, List.map_cons, weekStep, ih, List.append_assoc,
      List.cons_append, List.nil_append]

theorem weekFold_hours (subs : List (String × Submission)) (w : Date)
    (L : List Nat) (q : ℚ) (n : Nat) (es : List DayEntry)
    (h : q = (es.map (fun e => e.hours)).sum) :
    (L.foldl (weekStep subs w) (q, n, es)).1 =
      (((L.foldl (weekStep subs w) (q, n, es)).2.2).map (fun e => e.hours)).sum := by
  induction L generalizing q n es with
  | nil => simpa using h
  | cons i t ih =>
    simp only [List.foldl_cons, weekStep]
    apply ih
    simp [h]

/-! ## Casual leave ledger (`src/ui/forms.py`) -/

/-- One record of `casual_leave.json`'s `leaves` list.  The JSON field
`"end"` is called `stop` here (`end` is a Lean keyword); dates are stored
as `"%d-%m-%Y"` strings, carried as `Date` values. -/
structure LeaveRecord where
  start : Date
  stop : Date
  days : Int
deriving DecidableEq, Repr

/-- Per-user entry of `casual_leave.json`. -/
structure CasualRecord where
  bonus_days : Int
  leaves : List LeaveRecord
deriving DecidableEq, Repr

abbrev CasualData := List (Nat × CasualRecord)

/-- The casual-leave allowance: a finite day count or the
`float("inf")` sentinel. -/
inductive LeaveLimit where
  | finite (n : Int)
  | unlimited
deriving DecidableEq, Repr

/-- The `get_casual_leave_limit` of `src/ui/forms.py`. -/
def get_casual_leave_limit (user_roles : List Role) : LeaveLimit :=
  let role_names := user_roles.map (fun r => r.name)
  if "3rd_years" ∈ role_names ∧ "Core Member" ∈ role_names then .finite 10
  else if "Core Member" ∈ role_names ∨ "4th_years" ∈ role_names then .unlimited
  else .finite 2

/-- The `get_casual_leave_usage` of `src/ui/forms.py`.  `roles = none` models
the Python default `roles=None` (falsy, so the base limit 2 is used); an
empty role list is likewise falsy in Python. -/
def get_casual_leave_usage (user_id : Nat) (month year : Nat)
    (roles : Option (List Role)) (data : CasualData) : Int × LeaveLimit :=
  let allowed_days : LeaveLimit :=
    match roles with
    | some rs => if rs.isEmpty then .finite 2 else get_casual_leave_limit rs
    | none => .finite 2
  let allowed_days : LeaveLimit :=
    match dictFind user_id data with
    | some rec_ =>
        match allowed_days with
        | .finite n => .finite (n + rec_.bonus_days)
        | .unlimited => .unlimited
    | none => allowed_days
  let used_days : Int :=
    match dictFind user_id data with
    | some rec_ =>
        ((rec_.leaves.filter
            (fun l => decide (l.start.month = month ∧ l.start.year = year))).map
          (fun l => l.days)).sum
    | none => 0
  (used_days, allowed_days)

/-- The `record_casual_leave` of `src/ui/forms.py`. -/
def record_casual_leave (user_id : Nat) (start stop : Date) (days : Int)
    (data : CasualData) : CasualData :=
  let base : CasualRecord :=
    match dictFind user_id data with
    | some rec_ => rec_
    | none => { bonus_days := 0, leaves := [] }
  dictSet user_id
    { base with leaves := base.leaves ++ [{ start := start, stop := stop, days := days }] }
    data

/-! ## Leave requests (`pending.json`) and the approval buttons -/

/-- A leave request as stored in `pending.json`.  `mode` is absent for
special leave (the code reads it with `.get("mode", "")`). -/
structure LeaveRequest where
  request_id : String
  type : String
  member_id : Nat
  date_start : Date
  date_stop : Date
  reason : String
  mode : Option String
  status : String
  approver_id : Option Nat
  created_at : String
  updated_at : Option String
deriving DecidableEq, Repr

/-- The `find_pending_request` of `src/core/user_stats.py`. -/
def find_pending_request (request_id : String) (requests : List LeaveRequest) :
    Option LeaveRequest :=
  requests.find? (fun r => r.request_id == request_id)

/-- The `update_pending_request` of `src/core/user_stats.py`: mutates the
first request with the given id in place (status, approver, `updated_at`
:= `now`), saves, and returns the updated request; returns `none` and
leaves the store untouched when the id is unknown. -/
def update_pending_request (request_id : String) (status : String)
    (approver_id : Nat) (now : String) :
    List LeaveRequest → Option LeaveRequest × List LeaveRequest
  | [] => (none, [])
  | r :: t =>
      if r.request_id = request_id then
        let r' := { r with status := status, approver_id := some approver_id,
                           updated_at := some now }
        (some r', r' :: t)
      else
        let p := update_pending_request request_id status approver_id now t
        (p.1, r :: p.2)

/-- Result reported to the interacting user by the approve/deny button
callbacks of `src/ui/buttons.py`. -/
inductive ApproveOutcome where
  | notFound
  | selfApproval
  | requesterNotFound
  | insufficientPerms
  | success
deriving DecidableEq, Repr

/-- The approve/deny button callback of `LeaveApprovalView`
(`src/ui/buttons.py`), restricted to its effect on the request store:
it first calls `update_pending_request` (persisting the new status,
approver id and timestamp) and only afterwards runs `_check_permissions`
(self-approval, requester resolution, hierarchy).  `directory` models
`guild.fetch_member`; `new_status` is `"approved"` or `"denied"`. -/
def leave_action (new_status : String) (request_id : String) (actor : Member)
    (directory : Nat → Option Member) (now : String)
    (pending : List LeaveRequest) : ApproveOutcome × List LeaveRequest :=
  let p := update_pending_request request_id new_status actor.id now pending
  match p.1 with
  | none => (.notFound, p.2)
  | some request_data =>
      if actor.id = request_data.member_id then (.selfApproval, p.2)
      else
        match directory request_data.member_id with
        | none => (.requesterNotFound, p.2)
        | some requester =>
            if can_approve_request actor.roles requester.roles then
              (.success, p.2)
            else (.insufficientPerms, p.2)

/-! ## Casual leave submission (`CasualLeaveModal.on_submit`, steps 4-6) -/

inductive CasualOutcome where
  /-- "Casual leave limit exceeded. You have {remaining} days remaining…" -/
  | quotaExceeded (remaining : Int)
  /-- "Your casual leave has been auto-approved for {n} day(s)." -/
  | approved (requested_days : Int)
deriving DecidableEq, Repr

/-- Steps 4-6 of `CasualLeaveModal.on_submit` (`src/ui/forms.py`), after
role and date-range validation have succeeded: compute the inclusive day
count, check the monthly quota (skipped for the unlimited tier), and on
success append the auto-approved leave record.  The pending-request store
is returned unchanged in every branch: casual leave never creates a
`pending.json` entry. -/
def casual_leave_submit (user_id : Nat) (roles : List Role) (start stop : Date)
    (casual : CasualData) (pending : List LeaveRequest) :
    CasualOutcome × CasualData × List LeaveRequest :=
  let requested_days : Int := (dateOrd stop : Int) - (dateOrd start : Int) + 1
  let usage := get_casual_leave_usage user_id start.month start.year (some roles) casual
  match usage.2 with
  | .finite allowed =>
      if usage.1 + requested_days > allowed then
        (.quotaExceeded (max 0 (allowed - usage.1)), casual, pending)
      else
        (.approved requested_days,
         record_casual_leave user_id start stop requested_days casual, pending)
  | .unlimited =>
      (.approved requested_days,
       record_casual_leave user_id start stop requested_days casual, pending)

/-! ## Warning engine (`src/core/warnings.py`) -/

/-- ASCII lowercase of one character, modelling Python `str.lower()` on
the ASCII role names this bot deals in. -/
def lowerChar (c : Char) : Char :=
  match c with
  | 'A' => 'a' | 'B' => 'b' | 'C' => 'c' | 'D' => 'd' | 'E' => 'e' | 'F' => 'f'
  | 'G' => 'g' | 'H' => 'h' | 'I' => 'i' | 'J' => 'j' | 'K' => 'k' | 'L' => 'l'
  | 'M' => 'm' | 'N' => 'n' | 'O' => 'o' | 'P' => 'p' | 'Q' => 'q' | 'R' => 'r'
  | 'S' => 's' | 'T' => 't' | 'U' => 'u' | 'V' => 'v' | 'W' => 'w' | 'X' => 'x'
  | 'Y' => 'y' | 'Z' => 'z'
  | _ => c

/-- Python `str.lower()` (ASCII). -/
def toLowerAscii (s : String) : String := String.mk (s.data.map lowerChar)

/-- The `has_current_team_role` of `src/core/utils.py`. -/
def has_current_team_role (user_roles : List Role) : Bool :=
  (user_roles.map (fun r => toLowerAscii r.name)).contains "current-team"

/-- The `is_core_member_or_exempt` of `src/core/warnings.py`. -/
def is_core_member_or_exempt (user_roles : List Role) : Bool :=
  let role_names := user_roles.map (fun r => r.name)
  role_names.contains "Core Member" || role_names.contains "4th_years"

/-- The `TEAM_CATEGORY_MAP` of `src/core/channel_lookup.py`. -/
def TEAM_CATEGORY_MAP : List (String × String) :=
  [("RedTeam", "Red Teaming"), ("Android", "Mobile"),
   ("BlockChain", "Blockchain"), ("Mobile", "Mobile")]

/-- The `YEAR_CHANNEL_PREFIX_MAP` of `src/core/channel_lookup.py` (note the
source's `"4nd_years"` key, a distinct literal from `"4th_years"`). -/
def YEAR_CHANNEL_PREFIX_MAP : List (String × String) :=
  [("Trainee Member", "1st"), ("1st_years", "1st"), ("2nd_years", "2nd"),
   ("3rd_years", "3rd"), ("4nd_years", "4th")]

/-- Whether `validate_user_roles` of `src/ui/forms.py` succeeds (it raises
`ValueError` iff the role set holds no team role or no year role). -/
def validate_user_roles_ok (user_roles : List Role) : Bool :=
  (user_roles.any (fun r => (dictFind r.name TEAM_CATEGORY_MAP).isSome)) &&
  (user_roles.any (fun r => (dictFind r.name YEAR_CHANNEL_PREFIX_MAP).isSome))

/-- The `user_has_leave_on_date` of `src/core/warnings.py`: an approved or
auto-approved request whose range covers `date`, or a casual-leave record
covering `date`. -/
def user_has_leave_on_date (user_id : Nat) (date : Date)
    (requests : List LeaveRequest) (casual : CasualData) : Bool :=
  requests.any (fun r =>
      r.member_id == user_id &&
      (r.status == "approved" || r.status == "auto-approved") &&
      dateLE r.date_start date && dateLE date r.date_stop) ||
  (match dictFind user_id casual with
   | some rec_ => rec_.leaves.any (fun l => dateLE l.start date && dateLE date l.stop)
   | none => false)

/-- The `should_give_warning` of `src/core/warnings.py`. -/
def should_give_warning (member : Member) (date : Date)
    (requests : List LeaveRequest) (casual : CasualData) (data : UserData) : Bool :=
  if member.bot then false
  else if ¬ has_current_team_role member.roles then false
  else if is_core_member_or_exempt member.roles then false
  else if ¬ validate_user_roles_ok member.roles then false
  else if user_has_leave_on_date member.id date requests casual then false
  else if ¬ (get_user_submissions_for_date data member.id date).isEmpty then false
  else true

/-- State acted on by `give_warning`: the `warnings.json` map (keyed by
the `"{member.id}-{yyyy-mm}"` strings) and the member's role-name set. -/
structure WarnState where
  warnings : List (String × Nat)
  member_roles : List String
deriving DecidableEq, Repr

/-- The `member.add_roles(r)`: a no-op when the role is already held. -/
def addRole (r : String) (roles : List String) : List String :=
  if roles.contains r then roles else roles ++ [r]

/-- The `member.remove_roles(r)`. -/
def removeRole (r : String) (roles : List String) : List String :=
  roles.filter (fun x => x ≠ r)

/-- The `give_warning` of `src/core/warnings.py`, restricted to its state
effect.  `has_role_1st` / `has_role_2nd` model whether the guild defines
the "1st Probation" / "2nd Probation" roles (`discord.utils.get` returning
a role object rather than `None`); `month_key` is the
`f"{member.id}-{now:%Y-%m}"` key. -/
def give_warning (has_role_1st has_role_2nd : Bool) (month_key : String)
    (st : WarnState) : WarnState :=
  let count := (dictFind month_key st.warnings).getD 0 + 1
  let warnings := dictSet month_key count st.warnings
  let roles :=
    if count = 3 ∧ has_role_1st then
      addRole "1st Probation" st.member_roles
    else if count > 3 ∧ has_role_2nd then
      let r0 :=
        if has_role_1st ∧ st.member_roles.contains "1st Probation" then
          removeRole "1st Probation" st.member_roles
        else st.member_roles
      addRole "2nd Probation" r0
    else st.member_roles
  { warnings := warnings, member_roles := roles }

/-! ## Current-team eligibility cache (`src/core/current_team_manager.py`) -/

/-- One per-guild entry of the `_cache` dict: a set of user ids (modelled
as a duplicate-free-by-use list) and the `last_updated` timestamp. -/
structure CacheEntry where
  user_ids : List Nat
  last_updated : Nat
deriving DecidableEq, Repr

/-- The manager's observable state: the in-memory `_cache` and the
persisted `current_team_cache.json` snapshot written by `save_cache`. -/
structure TeamManagerState where
  cache : List (Nat × CacheEntry)
  disk : List (Nat × CacheEntry)
deriving DecidableEq, Repr

/-- The `save_cache`: serialise the in-memory cache to the snapshot file. -/
def save_cache (st : TeamManagerState) : TeamManagerState :=
  { st with disk := st.cache }

/-- The `add_member_to_cache` of `src/core/current_team_manager.py`: patch the
guild's cached id set (`set.add`) and save — but only when the guild
already has a cache entry. -/
def add_member_to_cache (guild_id user_id : Nat) (st : TeamManagerState) :
    TeamManagerState :=
  match dictFind guild_id st.cache with
  | none => st
  | some e =>
      let e' := { e with user_ids :=
        if e.user_ids.contains user_id then e.user_ids
        else e.user_ids ++ [user_id] }
      save_cache { st with cache := dictSet guild_id e' st.cache }

/-- The `remove_member_from_cache` of `src/core/current_team_manager.py`
(`set.discard`), again a silent no-op for an uncached guild. -/
def remove_member_from_cache (guild_id user_id : Nat) (st : TeamManagerState) :
    TeamManagerState :=
  match dictFind guild_id st.cache with
  | none => st
  | some e =>
      let e' := { e with user_ids := e.user_ids.filter (fun x => x ≠ user_id) }
      save_cache { st with cache := dictSet guild_id e' st.cache }

/-! ## Derived accessors used in claim statements -/

/-- The submissions currently stored for a user (empty when the user has
no record). -/
def userSubmissions (data : UserData) (user_id : Nat) : List (String × Submission) :=
  match dictFind user_id data with
  | some u => u.submissions
  | none => []

/-- The total hours currently stored for a user (0 when the user has no
record). -/
def priorTotalHours (data : UserData) (user_id : Nat) : ℚ :=
  match dictFind user_id data with
  | some u => u.total_hours
  | none => 0

/-- Iterated `give_warning` for one member within one month. -/
def giveWarnings (has_role_1st has_role_2nd : Bool) (month_key : String)
    (st : WarnState) : Nat → WarnState
  | 0 => st
  | n + 1 => give_warning has_role_1st has_role_2nd month_key
      (giveWarnings has_role_1st has_role_2nd month_key st n)

/-! ## Claims -/

/-- C4: `can_approve_request` returns true iff the approver's hierarchy
level is strictly greater than the requester's, where a user's level is
the maximum over their roles of the fixed `ROLE_HIERARCHY` map (a role
absent from the map contributes 0); in particular it returns false
whenever the two levels are equal. -/
theorem claim_C4 (approver_roles requester_roles : List Role) :
    (can_approve_request approver_roles requester_roles = true ↔
      specUserLevel approver_roles > specUserLevel requester_roles) ∧
    (specUserLevel approver_roles = specUserLevel requester_roles →
      can_approve_request approver_roles requester_roles = false) := by
  constructor
  · simp [can_approve_request, get_user_level_eq_specUserLevel]
  · intro h
    simp [can_approve_request, get_user_level_eq_specUserLevel, h]

/-- Witness for C4: a Core Member and a 4th-year have equal level 4, and
the approval check rejects the pair. -/
theorem claim_C4_witness :
    specUserLevel [⟨"Core Member"⟩] = specUserLevel [⟨"4th_years"⟩] ∧
    can_approve_request [⟨"Core Member"⟩] [⟨"4th_years"⟩] = false :=
  ⟨by decide, (claim_C4 [⟨"Core Member"⟩] [⟨"4th_years"⟩]).2 (by decide)⟩

/-- C7: for every user and week, `get_weekly_stats`' `total_hours` equals
the sum of the `hours` fields over the returned `daily_breakdown`. -/
theorem claim_C7 (data : UserData) (user_id : Nat) (week_start : Date) :
    (get_weekly_stats data user_id week_start).total_hours =
      (((get_weekly_stats data user_id week_start).daily_breakdown).map
        (fun e => e.hours)).sum := by
  unfold get_weekly_stats
  cases h : dictFind user_id data with
  | none => simp
  | some u =>
      simpa using weekFold_hours u.submissions week_start (List.range 7) 0 0 [] (by simp)

/-- C10: for a guild with no cache entry, `add_member_to_cache` and
`remove_member_from_cache` are silent no-ops: in-memory cache and
persisted snapshot are unchanged and no entry is created. -/
theorem claim_C10 (guild_id user_id : Nat) (st : TeamManagerState)
    (h : dictFind guild_id st.cache = none) :
    add_member_to_cache guild_id user_id st = st ∧
    remove_member_from_cache guild_id user_id st = st := by
  unfold add_member_to_cache remove_member_from_cache
  rw [h]
  exact ⟨rfl, rfl⟩

/-- Witness for C10: patching a member into a completely empty cache
state changes nothing. -/
theorem claim_C10_witness :
    add_member_to_cache 1 7 { cache := [], disk := [] } = { cache := [], disk := [] } ∧
    remove_member_from_cache 1 7 { cache := [], disk := [] } = { cache := [], disk := [] } :=
  claim_C10 1 7 { cache := [], disk := [] } rfl

/-- C8: a member whose role set is exactly `{"Core Member"}` never
receives a warning: `should_give_warning` returns false for every date
and every state of the request, casual-leave and submission stores. -/
theorem claim_C8 (member : Member) (hroles : member.roles = [⟨"Core Member"⟩])
    (date : Date) (requests : List LeaveRequest) (casual : CasualData)
    (data : UserData) :
    should_give_warning member date requests casual data = false := by
  have hteam : has_current_team_role [⟨"Core Member"⟩] = false := by decide
  unfold should_give_warning
  rw [hroles, hteam]
  by_cases hb : member.bot <;> simp [hb]

/-- Witness for C8: a concrete non-bot member holding only "Core Member",
with all stores empty, gets no warning. -/
theorem claim_C8_witness :
    should_give_warning { id := 5, bot := false, roles := [⟨"Core Member"⟩] }
      ⟨6, 10, 2025⟩ [] [] [] = false :=
  claim_C8 { id := 5, bot := false, roles := [⟨"Core Member"⟩] } rfl
    ⟨6, 10, 2025⟩ [] [] []

/-- C1 (code bug, failing-input evaluation): a pending medical request by
member 7; member 7 themself presses Approve.  The guard fails (the callback
reports the self-approval rejection), yet the stored request has already
been persisted as `approved` with approver id 7 and a fresh `updated_at` —
because `update_pending_request` runs before `_check_permissions`.  The
claim's "stored status is unchanged, no approver id or updated-at
persisted" is violated by the code. -/
theorem claim_C1_code_evaluation :
    (leave_action "approved" "r1" { id := 7, bot := false, roles := [⟨"Core Member"⟩] }
        (fun _ => none) "2025-10-06T09:00:00"
        [{ request_id := "r1", type := "medical", member_id := 7,
           date_start := ⟨1, 1, 2025⟩, date_stop := ⟨2, 1, 2025⟩,
           reason := "flu", mode := some "day-off", status := "pending",
           approver_id := none, created_at := "2025-09-30T08:00:00",
           updated_at := none }]).1 = ApproveOutcome.selfApproval ∧
    (leave_action "approved" "r1" { id := 7, bot := false, roles := [⟨"Core Member"⟩] }
        (fun _ => none) "2025-10-06T09:00:00"
        [{ request_id := "r1", type := "medical", member_id := 7,
           date_start := ⟨1, 1, 2025⟩, date_stop := ⟨2, 1, 2025⟩,
           reason := "flu", mode := some "day-off", status := "pending",
           approver_id := none, created_at := "2025-09-30T08:00:00",
           updated_at := none }]).2.map
      (fun r => (r.status, r.approver_id, r.updated_at)) =
      [("approved", some 7, some "2025-10-06T09:00:00")] := by
  exact ⟨rfl, rfl⟩

/-- C2 (code bug, failing-input evaluation): user 7 submits for
06-10-2025 with `is_late = true`, then overrides the same date with
`is_late = false`.  The override branch of `record_status_update` never
adjusts `late_submissions`, so the stored counter stays 1 while the
submissions map contains no late submission (`total_hours` and
`total_submissions` do stay consistent here). -/
theorem claim_C2_code_evaluation :
    (dictFind 7 (record_status_update 7 "alice" ⟨6, 10, 2025⟩ 6 "w" "None" false false
        "id2" "t2"
        (record_status_update 7 "alice" ⟨6, 10, 2025⟩ 5 "w" "None" false true
          "id1" "t1" []))).map
      (fun u => (u.late_submissions, derivedLateSubmissions u,
                 u.total_submissions, derivedTotalSubmissions u)) =
      some (1, 0, 1, 1) := by
  decide

/-- C6 (counterexample): for a user with no stored data at all,
`get_weekly_stats` returns an empty `daily_breakdown`, not 7 zero-filled
entries. -/
theorem claim_C6_counterexample :
    (get_weekly_stats [] 1 ⟨6, 10, 2025⟩).daily_breakdown.length ≠ 7 := by
  decide

/-- C6 (amended): for every user who has an entry in the store,
`get_weekly_stats` returns exactly 7 daily entries, one per day of the
week starting at `week_start`, with hours 0 for days having no
submission; for a user with no stored data at all the early-return branch
instead yields an empty `daily_breakdown`. -/
theorem claim_C6_amended :
    (∀ (data : UserData) (user_id : Nat) (week_start : Date) (u : UserRecord),
      dictFind user_id data = some u →
        (get_weekly_stats data user_id week_start).daily_breakdown.length = 7 ∧
        ∀ i, i < 7 →
          (get_weekly_stats data user_id week_start).daily_breakdown[i]? =
            some { date := addDays week_start i,
                   hours := dayHours u.submissions (addDays week_start i),
                   day_name := dayName (addDays week_start i) } ∧
          ((∀ p ∈ u.submissions, p.2.date ≠ addDays week_start i) →
            dayHours u.submissions (addDays week_start i) = 0)) ∧
    (∀ (data : UserData) (user_id : Nat) (week_start : Date),
      dictFind user_id data = none →
        (get_weekly_stats data user_id week_start).daily_breakdown = []) := by
  constructor
  · intro data user_id week_start u h
    unfold get_weekly_stats
    rw [h]
    simp only [weekFold_breakdown, List.nil_append]
    refine ⟨by simp, ?_⟩
    intro i hi
    constructor
    · simp [List.getElem?_map, List.getElem?_range, hi]
    · intro hnone
      unfold dayHours
      rw [List.filter_eq_nil_iff.mpr]
      · simp
      · intro p hp
        simpa using hnone p hp
  · intro data user_id week_start h
    unfold get_weekly_stats
    rw [h]

/-- Witness for C6 (amended): a stored user with no submissions still
gets a 7-entry breakdown. -/
theorem claim_C6_witness :
    (get_weekly_stats
        [(1, { username := "alice", submissions := [], total_hours := 0,
               total_submissions := 0, late_submissions := 0 })]
        1 ⟨6, 10, 2025⟩).daily_breakdown.length = 7 :=
  (claim_C6_amended.1
    [(1, { username := "alice", submissions := [], total_hours := 0,
           total_submissions := 0, late_submissions := 0 })]
    1 ⟨6, 10, 2025⟩ _ rfl).1

/-- C5 (counterexample): a requester whose roles include "Core Member"
can be rejected on quota: a 3rd-year Core Member falls in the finite
10-day tier, so an 11-day request with empty history is rejected with
`QuotaExceeded` — refuting "a requester whose roles include Core Member
or 4th_years is never rejected on quota". -/
theorem claim_C5_counterexample :
    "Core Member" ∈
      (([⟨"RedTeam"⟩, ⟨"3rd_years"⟩, ⟨"Core Member"⟩] : List Role).map
        (fun r => r.name)) ∧
    (casual_leave_submit 7 [⟨"RedTeam"⟩, ⟨"3rd_years"⟩, ⟨"Core Member"⟩]
        ⟨1, 1, 2025⟩ ⟨11, 1, 2025⟩ [] []).1 =
      CasualOutcome.quotaExceeded 10 := by
  exact ⟨by decide, by decide⟩

/-- C5 (amended): a casual-leave request for `requestedDays =
(end-start).days + 1` inclusive days is rejected with `QuotaExceeded`
exactly when the requester's tier is finite and `usedDays + requestedDays
> allowedDays`; a regular member (allowed 2, no bonus) with 0 used days
succeeds at exactly 2 requested days and fails at 3; a requester of the
*unlimited* tier — roles include Core Member or 4th_years but not both
3rd_years and Core Member (a 3rd-year Core Member has the finite 10-day
tier) — is never rejected on quota; and on success the leave record is
appended to the casual ledger while the pending-request store is left
untouched (no workflow entry). -/
theorem claim_C5_amended :
    (∀ (user_id : Nat) (roles : List Role) (start stop : Date)
        (casual : CasualData) (pending : List LeaveRequest),
      (∃ rem, (casual_leave_submit user_id roles start stop casual pending).1 =
          CasualOutcome.quotaExceeded rem) ↔
        (∃ n, (get_casual_leave_usage user_id start.month start.year (some roles) casual).2 =
              LeaveLimit.finite n ∧
            (get_casual_leave_usage user_id start.month start.year (some roles) casual).1 +
              ((dateOrd stop : Int) - (dateOrd start : Int) + 1) > n)) ∧
    ((casual_leave_submit 7 [⟨"RedTeam"⟩, ⟨"2nd_years"⟩]
        ⟨1, 1, 2025⟩ ⟨2, 1, 2025⟩ [] []).1 = CasualOutcome.approved 2 ∧
     (casual_leave_submit 7 [⟨"RedTeam"⟩, ⟨"2nd_years"⟩]
        ⟨1, 1, 2025⟩ ⟨3, 1, 2025⟩ [] []).1 = CasualOutcome.quotaExceeded 2) ∧
    (∀ (user_id : Nat) (roles : List Role) (start stop : Date)
        (casual : CasualData) (pending : List LeaveRequest),
      ("Core Member" ∈ roles.map (fun r => r.name) ∨
       "4th_years" ∈ roles.map (fun r => r.name)) →
      ¬("3rd_years" ∈ roles.map (fun r => r.name) ∧
        "Core Member" ∈ roles.map (fun r => r.name)) →
      (casual_leave_submit user_id roles start stop casual pending).1 =
        CasualOutcome.approved ((dateOrd stop : Int) - (dateOrd start : Int) + 1)) ∧
    (∀ (user_id : Nat) (roles : List Role) (start stop : Date)
        (casual : CasualData) (pending : List LeaveRequest) (req : Int),
      (casual_leave_submit user_id roles start stop casual pending).1 =
        CasualOutcome.approved req →
      (casual_leave_submit user_id roles start stop casual pending).2 =
        (record_casual_leave user_id start stop req casual, pending)) := by
  refine ⟨?_, ⟨by decide, by decide⟩, ?_, ?_⟩
  · intro user_id roles start stop casual pending
    unfold casual_leave_submit
    cases h : (get_casual_leave_usage user_id start.month start.year (some roles) casual).2 with
    | finite n =>
        simp only [h]
        by_cases hq :
            (get_casual_leave_usage user_id start.month start.year (some roles) casual).1 +
              ((dateOrd stop : Int) - (dateOrd start : Int) + 1) > n
        · simp only [if_pos hq]
          exact ⟨fun _ => ⟨n, rfl, hq⟩, fun _ => ⟨_, rfl⟩⟩
        · simp only [if_neg hq]
          constructor
          · rintro ⟨rem, hrem⟩
            exact absurd hrem (by simp)
          · rintro ⟨n', hn', hgt⟩
            cases hn'
            exact absurd hgt hq
    | unlimited =>
        simp only [h]
        constructor
        · rintro ⟨rem, hrem⟩
          exact absurd hrem (by simp)
        · rintro ⟨n', hn', _⟩
          cases hn'
  · intro user_id roles start stop casual pending hmem hnot
    have hne : roles.isEmpty = false := by
      rcases hmem with hmem | hmem <;>
        (rcases List.mem_map.mp hmem with ⟨r, hr, _⟩; cases roles
         · simp at hr
         · rfl)
    have hlim : get_casual_leave_limit roles = LeaveLimit.unlimited := by
      unfold get_casual_leave_limit
      rw [if_neg, if_pos]
      · exact hmem
      · exact hnot
    have husage :
        (get_casual_leave_usage user_id start.month start.year (some roles) casual).2 =
          LeaveLimit.unlimited := by
      unfold get_casual_leave_usage
      simp only [hne, Bool.false_eq_true, if_false, hlim]
      cases dictFind user_id casual <;> rfl
    unfold casual_leave_submit
    simp only [husage]
  · intro user_id roles start stop casual pending req happ
    unfold casual_leave_submit at happ ⊢
    cases h : (get_casual_leave_usage user_id start.month start.year (some roles) casual).2 with
    | finite n =>
        simp only [h] at happ ⊢
        by_cases hq :
            (get_casual_leave_usage user_id start.month start.year (some roles) casual).1 +
              ((dateOrd stop : Int) - (dateOrd start : Int) + 1) > n
        · rw [if_pos hq] at happ
          exact absurd happ (by simp)
        · rw [if_neg hq] at happ ⊢
          simp only [CasualOutcome.approved.injEq] at happ
          rw [← happ]
    | unlimited =>
        simp only [h] at happ ⊢
        simp only [CasualOutcome.approved.injEq] at happ
        rw [← happ]

/-- Witness for C5 (amended): a sole Core Member (unlimited tier)
requesting the whole of 2025 (365 days) is auto-approved, never
quota-rejected. -/
theorem claim_C5_witness :
    (casual_leave_submit 1 [⟨"Core Member"⟩] ⟨1, 1, 2025⟩ ⟨31, 12, 2025⟩ [] []).1 =
      CasualOutcome.approved 365 :=
  (claim_C5_amended.2.2.1 1 [⟨"Core Member"⟩] ⟨1, 1, 2025⟩ ⟨31, 12, 2025⟩ [] []
      (by decide) (by decide)).trans (by decide)

theorem giveWarnings_succ (has_role_1st has_role_2nd : Bool) (month_key : String)
    (st : WarnState) (n : Nat) :
    giveWarnings has_role_1st has_role_2nd month_key st (n + 1) =
      give_warning has_role_1st has_role_2nd month_key
        (giveWarnings has_role_1st has_role_2nd month_key st n) := rfl

theorem removeRole_of_not_mem {r : List String} (h : "1st Probation" ∉ r) :
    removeRole "1st Probation" r = r := by
  unfold removeRole
  rw [List.filter_eq_self]
  intro x hx
  simp only [ne_eq, decide_not, Bool.not_eq_eq_eq_not, Bool.not_true, decide_eq_false_iff_not]
  rintro rfl
  exact h hx

/-- C9: `give_warning` increments the member's current-month count by
exactly 1 and evaluates escalation against the new count: at count 3
"1st Probation" is granted; above 3, "1st Probation" (if held) is removed
and "2nd Probation" granted.  For a member starting at count 0 with
neither probation role, after 5 warnings in one month (guild defining
both probation roles) the member holds "2nd Probation" and not
"1st Probation" from the 4th warning onward. -/
theorem claim_C9 (month_key : String) (w : List (String × Nat)) (r : List String)
    (h0 : dictFind month_key w = none)
    (h1 : "1st Probation" ∉ r) (h2 : "2nd Probation" ∉ r) :
    (∀ st : WarnState,
      (dictFind month_key (give_warning true true month_key st).warnings).getD 0 =
        (dictFind month_key st.warnings).getD 0 + 1) ∧
    "1st Probation" ∈ (giveWarnings true true month_key ⟨w, r⟩ 3).member_roles ∧
    "2nd Probation" ∈ (giveWarnings true true month_key ⟨w, r⟩ 4).member_roles ∧
    "1st Probation" ∉ (giveWarnings true true month_key ⟨w, r⟩ 4).member_roles ∧
    "2nd Probation" ∈ (giveWarnings true true month_key ⟨w, r⟩ 5).member_roles ∧
    "1st Probation" ∉ (giveWarnings true true month_key ⟨w, r⟩ 5).member_roles ∧
    (dictFind month_key (giveWarnings true true month_key ⟨w, r⟩ 5).warnings).getD 0 = 5 := by
  have hc1 : r.contains "1st Probation" = false := by simpa using h1
  have hc2 : r.contains "2nd Probation" = false := by simpa using h2
  have e1 : giveWarnings true true month_key ⟨w, r⟩ 1 =
      ⟨dictSet month_key 1 w, r⟩ := by
    rw [show (1 : Nat) = 0 + 1 from rfl, giveWarnings_succ]
    simp [giveWarnings, give_warning, h0]
  have e2 : giveWarnings true true month_key ⟨w, r⟩ 2 =
      ⟨dictSet month_key 2 (dictSet month_key 1 w), r⟩ := by
    rw [show (2 : Nat) = 1 + 1 from rfl, giveWarnings_succ, e1]
    simp [give_warning, dictFind_dictSet_self]
  have e3 : giveWarnings true true month_key ⟨w, r⟩ 3 =
      ⟨dictSet month_key 3 (dictSet month_key 2 (dictSet month_key 1 w)),
       r ++ ["1st Probation"]⟩ := by
    rw [show (3 : Nat) = 2 + 1 from rfl, giveWarnings_succ, e2]
    simp [give_warning, dictFind_dictSet_self, addRole, hc1, h1]
  have e4 : giveWarnings true true month_key ⟨w, r⟩ 4 =
      ⟨dictSet month_key 4 (dictSet month_key 3 (dictSet month_key 2 (dictSet month_key 1 w))),
       r ++ ["2nd Probation"]⟩ := by
    have hrm : removeRole "1st Probation" (r ++ ["1st Probation"]) = r := by
      unfold removeRole
      rw [List.filter_append]
      rw [show List.filter (fun x => decide (x ≠ "1st Probation")) r = r from
        removeRole_of_not_mem h1]
      simp
    rw [show (4 : Nat) = 3 + 1 from rfl, giveWarnings_succ, e3]
    simp [give_warning, dictFind_dictSet_self, addRole, hrm, hc2, h2]
  have e5 : giveWarnings true true month_key ⟨w, r⟩ 5 =
      ⟨dictSet month_key 5 (dictSet month_key 4 (dictSet month_key 3
          (dictSet month_key 2 (dictSet month_key 1 w)))),
       r ++ ["2nd Probation"]⟩ := by
    have hcon : ("1st Probation" ∈ r ++ ["2nd Probation"]) = False := by
      simp
      exact fun hmem => absurd hmem h1
    rw [show (5 : Nat) = 4 + 1 from rfl, giveWarnings_succ, e4]
    simp [give_warning, dictFind_dictSet_self, addRole, hcon]
  refine ⟨?_, ?_, ?_, ?_, ?_, ?_, ?_⟩
  · intro st
    simp [give_warning, dictFind_dictSet_self]
  · rw [e3]; simp
  · rw [e4]; simp
  · rw [e4]
    simp only [List.mem_append, List.mem_singleton]
    rintro (hmem | hmem)
    · exact h1 hmem
    · simp at hmem
  · rw [e5]; simp
  · rw [e5]
    simp only [List.mem_append, List.mem_singleton]
    rintro (hmem | hmem)
    · exact h1 hmem
    · simp at hmem
  · rw [e5]
    simp [dictFind_dictSet_self]

/-- Witness for C9: the concrete run from an empty warning ledger and an
empty role set reaches "2nd Probation" (and loses "1st Probation") by the
5th warning with a count of 5. -/
theorem claim_C9_witness :
    "2nd Probation" ∈ (giveWarnings true true "7-2025-10" ⟨[], []⟩ 5).member_roles ∧
    "1st Probation" ∉ (giveWarnings true true "7-2025-10" ⟨[], []⟩ 5).member_roles ∧
    (dictFind "7-2025-10" (giveWarnings true true "7-2025-10" ⟨[], []⟩ 5).warnings).getD 0 = 5 := by
  have h := claim_C9 "7-2025-10" [] [] rfl (by simp) (by simp)
  exact ⟨h.2.2.2.2.1, h.2.2.2.2.2.1, h.2.2.2.2.2.2⟩

/-- The `base` record picked by `record_status_update`: the user's stored
record, or the freshly initialised one. -/
def userRecordBase (data : UserData) (user_id : Nat) (username : String) : UserRecord :=
  match dictFind user_id data with
  | some u => u
  | none =>
      { username := username, submissions := [], total_hours := 0,
        total_submissions := 0, late_submissions := 0 }

theorem userRecordBase_submissions (data : UserData) (user_id : Nat) (username : String) :
    (userRecordBase data user_id username).submissions = userSubmissions data user_id := by
  unfold userRecordBase userSubmissions
  cases dictFind user_id data <;> rfl

theorem userRecordBase_total_hours (data : UserData) (user_id : Nat) (username : String) :
    (userRecordBase data user_id username).total_hours = priorTotalHours data user_id := by
  unfold userRecordBase priorTotalHours
  cases dictFind user_id data <;> rfl

theorem dictSet_append_key {α β : Type} [DecidableEq α] {S : List (α × β)}
    {k : α} (v w : β) (h : dictFind k S = none) :
    dictSet k v (S ++ [(k, w)]) = S ++ [(k, v)] := by
  induction S with
  | nil => simp
  | cons p t ih =>
    obtain ⟨k', x⟩ := p
    by_cases hk : k' = k
    · simp [hk] at h
    · simp only [dictFind_cons, hk, if_false] at h
      simp only [List.cons_append, dictSet_cons, if_neg hk, ih h]

theorem record_no_existing (user_id : Nat) (username : String) (date : Date)
    (hours : ℚ) (descr blockers : String) (wfh late : Bool) (nid now : String)
    (data : UserData)
    (hnod : ∀ p ∈ userSubmissions data user_id, p.2.date ≠ date) :
    record_status_update user_id username date hours descr blockers wfh late nid now data =
      dictSet user_id
        { username := username,
          submissions := userSubmissions data user_id ++
            [(nid, { date := date, hours := hours, description := descr,
                     blockers := blockers, is_wfh := wfh, is_late := late,
                     timestamp := now })],
          total_hours := priorTotalHours data user_id + hours,
          total_submissions := (userRecordBase data user_id username).total_submissions + 1,
          late_submissions := (userRecordBase data user_id username).late_submissions +
            (if late then 1 else 0) } data := by
  have hfs : findSubmissionForDate (userSubmissions data user_id) date = none := by
    unfold findSubmissionForDate
    exact List.find?_eq_none.mpr (fun p hp => by simpa using hnod p hp)
  unfold record_status_update
  unfold userSubmissions priorTotalHours userRecordBase at *
  cases hdict : dictFind user_id data with
  | none =>
      simp only [hdict] at hfs ⊢
      rw [hfs]
  | some u =>
      simp only [hdict] at hfs ⊢
      rw [hfs]

theorem record_with_existing (user_id : Nat) (username : String) (date : Date)
    (hours : ℚ) (descr blockers : String) (wfh late : Bool) (nid now : String)
    (data : UserData) (u : UserRecord) (S : List (String × Submission))
    (sid : String) (old : Submission)
    (hu : dictFind user_id data = some u)
    (hsubs : u.submissions = S ++ [(sid, old)])
    (hS : ∀ p ∈ S, p.2.date ≠ date)
    (hold : old.date = date)
    (hsid : dictFind sid S = none) :
    record_status_update user_id username date hours descr blockers wfh late nid now data =
      dictSet user_id
        { username := username,
          submissions := S ++
            [(sid, { date := date, hours := hours, description := descr,
                     blockers := blockers, is_wfh := wfh, is_late := late,
                     timestamp := now })],
          total_hours := u.total_hours - old.hours + hours,
          total_submissions := u.total_submissions,
          late_submissions := u.late_submissions } data := by
  have hfs : findSubmissionForDate u.submissions date = some (sid, old) := by
    unfold findSubmissionForDate
    rw [hsubs, List.find?_append, List.find?_eq_none.mpr
      (fun p hp => by simpa using hS p hp)]
    simp [List.find?, hold]
  unfold record_status_update
  simp only [hu, hfs]
  rw [hsubs, dictSet_append_key _ _ hsid]

/-- C3: when the user has no submission stored for date `d` (and the
first call's fresh uuid does not collide with an existing submission id),
calling `record_status_update` twice for the same `(user, d)` leaves
exactly one stored submission for `d` — the second one — and the user's
stored `total_hours` becomes the prior total plus the *second* call's
hours (the first call's hours having been subtracted before the new hours
were added), not the sum of both. -/
theorem claim_C3 (data : UserData) (user_id : Nat) (d : Date)
    (uname1 uname2 : String) (h1 h2 : ℚ) (desc1 bl1 desc2 bl2 : String)
    (wfh1 late1 wfh2 late2 : Bool) (id1 now1 id2 now2 : String)
    (hnod : ∀ p ∈ userSubmissions data user_id, p.2.date ≠ d)
    (hfresh : dictFind id1 (userSubmissions data user_id) = none) :
    get_user_submissions_for_date
        (record_status_update user_id uname2 d h2 desc2 bl2 wfh2 late2 id2 now2
          (record_status_update user_id uname1 d h1 desc1 bl1 wfh1 late1 id1 now1 data))
        user_id d =
      [{ date := d, hours := h2, description := desc2, blockers := bl2,
         is_wfh := wfh2, is_late := late2, timestamp := now2 }] ∧
    priorTotalHours
        (record_status_update user_id uname2 d h2 desc2 bl2 wfh2 late2 id2 now2
          (record_status_update user_id uname1 d h1 desc1 bl1 wfh1 late1 id1 now1 data))
        user_id =
      priorTotalHours data user_id + h2 := by
  have e1 := record_no_existing user_id uname1 d h1 desc1 bl1 wfh1 late1 id1 now1 data hnod
  rw [e1]
  have e2 := record_with_existing user_id uname2 d h2 desc2 bl2 wfh2 late2 id2 now2
    (dictSet user_id
      { username := uname1,
        submissions := userSubmissions data user_id ++
          [(id1, { date := d, hours := h1, description := desc1,
                   blockers := bl1, is_wfh := wfh1, is_late := late1,
                   timestamp := now1 })],
        total_hours := priorTotalHours data user_id + h1,
        total_submissions := (userRecordBase data user_id uname1).total_submissions + 1,
        late_submissions := (userRecordBase data user_id uname1).late_submissions +
          (if late1 then 1 else 0) } data)
    _ (userSubmissions data user_id) id1
    { date := d, hours := h1, description := desc1, blockers := bl1,
      is_wfh := wfh1, is_late := late1, timestamp := now1 }
    (dictFind_dictSet_self _ _ _) rfl hnod rfl hfresh
  rw [e2]
  constructor
  · simp only [get_user_submissions_for_date, dictFind_dictSet_self]
    rw [List.filter_append, List.filter_eq_nil_iff.mpr
      (fun p hp => by simpa using hnod p hp)]
    simp
  · simp only [priorTotalHours, dictFind_dictSet_self]
    ring

/-- Witness for C3: starting from an empty store, user 7 submits 5 hours
then 3 hours for the same date; exactly the 3-hour submission remains and
`total_hours` is 3, not 8. -/
theorem claim_C3_witness :
    get_user_submissions_for_date
        (record_status_update 7 "a" ⟨6, 10, 2025⟩ 3 "w2" "None" false false "id2" "t2"
          (record_status_update 7 "a" ⟨6, 10, 2025⟩ 5 "w1" "None" false false "id1" "t1" []))
        7 ⟨6, 10, 2025⟩ =
      [{ date := ⟨6, 10, 2025⟩, hours := 3, description := "w2", blockers := "None",
         is_wfh := false, is_late := false, timestamp := "t2" }] ∧
    priorTotalHours
        (record_status_update 7 "a" ⟨6, 10, 2025⟩ 3 "w2" "None" false false "id2" "t2"
          (record_status_update 7 "a" ⟨6, 10, 2025⟩ 5 "w1" "None" false false "id1" "t1" []))
        7 =
      priorTotalHours [] 7 + 3 :=
  claim_C3 [] 7 ⟨6, 10, 2025⟩ "a" "a" 5 3 "w1" "None" "w2" "None"
    false false false false "id1" "t1" "id2" "t2"
    (by intro p hp; simp [userSubmissions] at hp) (by rfl)

end DiscordBot
